import Mathlib

/- Verification development for the course-materials RAG chatbot backend.

   The definitions below are a shallow embedding of the two core modules:
   `backend/search_tools.py` (the retrieval tool, the outline tool and the
   tool registry) and `backend/ai_generator.py` (the bounded multi-round
   tool orchestrator).  Python optional values become `Option`, Python
   truthiness tests (`if x:`) are made explicit, a raised Python exception
   is an `Except.error`, and mutable per-instance state (`last_sources`,
   the conversation message list) is threaded explicitly. -/

namespace RagChatbot

/-- Python truthiness of an optional string (`if s:` in the source): `None`
and the empty string are falsy. -/
def truthyStr (s : Option String) : Bool :=
  match s with
  | none => false
  | some t => t ≠ ""

/-- Python truthiness of an optional integer (`if n:` in the source): `None`
and `0` are falsy. -/
def truthyInt (n : Option Int) : Bool :=
  match n with
  | none => false
  | some k => k ≠ 0

/-- Modelled from the spec: `SourceReference` (§3) — a display label plus an
optional deep link.  The backing class (`SourceWithLink` in
`backend/models.py`) is repository code not under src/; the spec describes it
as "display label (course title, optionally - Lesson N), optional deep
link". -/
structure SourceWithLink where
  text : String
  url : Option String
deriving DecidableEq

/-- Metadata dict attached to one retrieved chunk.  The source reads it with
`meta.get('course_title', 'unknown')` and `meta.get('lesson_number')`, so both
keys may be absent. -/
structure ChunkMeta where
  course_title : Option String
  lesson_number : Option Int
deriving DecidableEq

/-- Modelled from the spec: the semantic-index response (§6) — "ordered
passages with text + metadata, or an error string".  The backing class
(`SearchResults` in `backend/vector_store.py`) is repository code not under
src/; its `distances` field is never read by the code under verification and
is omitted. -/
structure SearchResults where
  documents : List String
  metadata : List ChunkMeta
  error : Option String
deriving DecidableEq

/-- Modelled from the spec: `SearchResults.is_empty()` reports that no
passage was returned. -/
def SearchResults.is_empty (r : SearchResults) : Bool :=
  r.documents.isEmpty

/-- Metadata record of one lesson inside a course metadata record.  Read with
`lesson.get('lesson_number')` and `lesson.get('lesson_title', 'Untitled
Lesson')` in the source. -/
structure LessonMeta where
  lesson_number : Option Int
  lesson_title : Option String
deriving DecidableEq

/-- Metadata record of one course, as returned by the catalog.  Read with
`course.get('title')`, `course.get('course_link')`, `course.get('instructor')`
and `course.get('lessons', [])` in the source. -/
structure CourseMeta where
  title : Option String
  course_link : Option String
  instructor : Option String
  lessons : List LessonMeta
deriving DecidableEq

/-- Modelled from the spec: the vector store / catalog collaborator (§6),
an external dependency of both tools.  `search` is the filtered semantic
search, `get_lesson_link` and `get_all_courses_metadata` are the catalog
lookups, `resolve_course_name` is fuzzy name resolution
(`_resolve_course_name` in the source, returning a canonical title or
`None`). -/
structure VectorStore where
  search : String → Option String → Option Int → SearchResults
  get_lesson_link : String → Int → Option String
  resolve_course_name : String → Option String
  get_all_courses_metadata : List CourseMeta

/-- One structured source built by `CourseSearchTool._format_results` for one
retrieved chunk: label `<course>` or `<course> - Lesson <n>`, with a
per-lesson deep link looked up only when a lesson number is present. -/
def mkSourceWithLink (store : VectorStore) (meta : ChunkMeta) : SourceWithLink :=
  let course_title := meta.course_title.getD "unknown"
  let source_text := course_title ++
    (match meta.lesson_number with
     | some n => " - Lesson " ++ toString n
     | none => "")
  let lesson_link :=
    match meta.lesson_number with
    | some n => store.get_lesson_link course_title n
    | none => none
  { text := source_text, url := lesson_link }

/-- The context header plus document text built by
`CourseSearchTool._format_results` for one retrieved chunk. -/
def formatChunk (meta : ChunkMeta) (doc : String) : String :=
  let course_title := meta.course_title.getD "unknown"
  let header := "[" ++ course_title ++
    (match meta.lesson_number with
     | some n => " - Lesson " ++ toString n
     | none => "") ++ "]"
  header ++ "\n" ++ doc

/-- `CourseSearchTool._format_results`: zips documents with metadata, renders
each chunk under its header, collects one structured source per chunk, and
returns the joined text together with the new `last_sources` value. -/
def CourseSearchTool.format_results (store : VectorStore) (results : SearchResults) :
    String × List SourceWithLink :=
  let pairs := results.documents.zip results.metadata
  let formatted := pairs.map (fun p => formatChunk p.2 p.1)
  let sources := pairs.map (fun p => mkSourceWithLink store p.2)
  (String.intercalate "\n\n" formatted, sources)

/-- `CourseSearchTool.execute`: runs the store search, surfaces a truthy
backend error verbatim, renders the no-match message (echoing the filters the
Python truthiness tests consider set), or formats the results.  The last
component is the tool's `last_sources` after the call (`prior` before it). -/
def CourseSearchTool.execute (store : VectorStore) (query : String)
    (course_name : Option String) (lesson_number : Option Int)
    (prior : List SourceWithLink) : String × List SourceWithLink :=
  let results := store.search query course_name lesson_number
  if truthyStr results.error then
    (results.error.getD "", prior)
  else if results.is_empty then
    let filter_info :=
      (if truthyStr course_name then
        " in course \x27" ++ course_name.getD "" ++ "\x27"
      else "") ++
      (if truthyInt lesson_number then
        " in lesson " ++ toString (lesson_number.getD 0)
      else "")
    ("No relevant content found" ++ filter_info ++ ".", prior)
  else
    CourseSearchTool.format_results store results

/-- Store operation performed by the outline tool, recorded in order so that
short-circuiting (resolution failure performing no metadata lookup) is
observable in the embedding. -/
inductive StoreOp
| resolveCourseName (name : String)
| getAllCoursesMetadata
deriving DecidableEq

/-- Sort key used by `CourseOutlineTool._format_course_outline`:
`lesson.get('lesson_number', 0)`. -/
def lessonSortKey (l : LessonMeta) : Int :=
  l.lesson_number.getD 0

/-- One lesson line of the outline: `f"{lesson_num}. {lesson_title}"` where
`lesson_num = lesson.get('lesson_number')` (printing `None` if absent, as
Python string interpolation does) and the title defaults to
`Untitled Lesson`. -/
def formatLessonLine (l : LessonMeta) : String :=
  (match l.lesson_number with
   | some n => toString n
   | none => "None") ++ ". " ++ l.lesson_title.getD "Untitled Lesson"

/-- `CourseOutlineTool._format_course_outline`: renders the title, the course
link and instructor when truthy, and the lesson list sorted by
`lesson.get('lesson_number', 0)` (Python `sorted` is a stable sort, embedded
as the stable `List.insertionSort`); also returns the singleton
`last_sources` value the method stores. -/
def CourseOutlineTool.format_course_outline (cm : CourseMeta) :
    String × List SourceWithLink :=
  let title := cm.title.getD "Unknown Course"
  let course_link := cm.course_link
  let lessons := cm.lessons
  let instructor := cm.instructor
  let headerParts : List String :=
    if truthyStr course_link then
      ["**" ++ title ++ "**", "Course Link: " ++ course_link.getD ""]
    else
      ["**" ++ title ++ "**"]
  let withInstructor : List String :=
    headerParts ++
      (if truthyStr instructor then ["Instructor: " ++ instructor.getD ""] else [])
  let lessonParts : List String :=
    if lessons.isEmpty then
      ["\n**Lessons:** No lessons available"]
    else
      ("\n**Lessons (" ++ toString lessons.length ++ " total):**") ::
        (lessons.insertionSort
          (fun a b => lessonSortKey a ≤ lessonSortKey b)).map formatLessonLine
  let outline_parts := withInstructor ++ lessonParts
  (String.intercalate "\n" outline_parts, [{ text := title, url := course_link }])

/-- `CourseOutlineTool.execute`: resolves the course name (truthiness check on
the result), on failure short-circuits with the no-course message; otherwise
scans all courses metadata for the resolved title (first match, as the
source's for/break loop) and either reports missing metadata or renders the
outline.  Components: output text, `last_sources` after the call, trace of
store operations performed. -/
def CourseOutlineTool.execute (store : VectorStore) (course_name : String)
    (prior : List SourceWithLink) :
    String × List SourceWithLink × List StoreOp :=
  let resolved := store.resolve_course_name course_name
  if truthyStr resolved then
    let resolved_course_title := resolved.getD ""
    let all_courses_metadata := store.get_all_courses_metadata
    let course_metadata :=
      all_courses_metadata.find? (fun c => c.title == some resolved_course_title)
    match course_metadata with
    | none =>
      ("Course metadata not found for \x27" ++ resolved_course_title ++ "\x27",
       prior,
       [StoreOp.resolveCourseName course_name, StoreOp.getAllCoursesMetadata])
    | some cm =>
      let fmt := CourseOutlineTool.format_course_outline cm
      (fmt.1, fmt.2,
       [StoreOp.resolveCourseName course_name, StoreOp.getAllCoursesMetadata])
  else
    ("No course found matching \x27" ++ course_name ++ "\x27",
     prior,
     [StoreOp.resolveCourseName course_name])

/-- Observable state of one registered tool inside `ToolManager`: its
registered name and, when the tool instance has a `last_sources` attribute,
that attribute's current value (`none` models a tool without the
attribute). -/
structure ToolState where
  name : String
  last_sources : Option (List SourceWithLink)
deriving DecidableEq

/-- `ToolManager.get_last_sources`: scans the registered tools in
registration order (Python dicts preserve insertion order) and returns the
first truthy (non-empty) `last_sources`, else the empty list. -/
def ToolManager.get_last_sources : List ToolState → List SourceWithLink
  | [] => []
  | t :: rest =>
    match t.last_sources with
    | some ss => if ss.isEmpty then ToolManager.get_last_sources rest else ss
    | none => ToolManager.get_last_sources rest

/-- `ToolManager.reset_sources`: sets `last_sources = []` on every tool that
has the attribute. -/
def ToolManager.reset_sources (tools : List ToolState) : List ToolState :=
  tools.map (fun t =>
    { t with last_sources := t.last_sources.map (fun _ => ([] : List SourceWithLink)) })

/-- Argument mapping of one tool invocation (`content_block.input`,
opaque key-value pairs). -/
abbrev ToolArgs := List (String × String)

/-- Behaviour of one registered tool's `execute`: returns the tool text or
raises (`Except.error`). -/
abbrev ToolBehavior := ToolArgs → Except String String

/-- `ToolManager.execute_tool`: dictionary lookup by tool name (the
registration dict is embedded as an association list in insertion order);
an unknown name yields the "Tool '...' not found" string, a known name runs
the tool, whose exceptions propagate to the caller. -/
def ToolManager.execute_tool (tools : List (String × ToolBehavior))
    (tool_name : String) (args : ToolArgs) : Except String String :=
  match tools.find? (fun p => p.1 == tool_name) with
  | none => Except.ok ("Tool \x27" ++ tool_name ++ "\x27 not found")
  | some p => p.2 args

/-- Modelled from the spec: the application's registry holds the search tool
and then the outline tool (§2 lists them in this order and §8 scenario 3
relies on it); the wiring module that registers them is repository code not
under src/.  The registry state is the two tool instances' mutable
`last_sources` fields. -/
structure TwoToolRegistry where
  searchSources : List SourceWithLink
  outlineSources : List SourceWithLink
deriving DecidableEq

/-- One tool execution dispatched through the registry. -/
inductive ToolCallEvent
| searchCall (query : String) (course_name : Option String) (lesson_number : Option Int)
| outlineCall (course_name : String)

/-- Dispatching one tool execution updates exactly the executed tool's
`last_sources` (via the corresponding `execute` embedding). -/
def TwoToolRegistry.step (store : VectorStore) (r : TwoToolRegistry) :
    ToolCallEvent → TwoToolRegistry
  | ToolCallEvent.searchCall q cn ln =>
    { r with searchSources := (CourseSearchTool.execute store q cn ln r.searchSources).2 }
  | ToolCallEvent.outlineCall c =>
    { r with outlineSources := (CourseOutlineTool.execute store c r.outlineSources).2.1 }

/-- Runs a sequence of tool executions through the registry in order. -/
def TwoToolRegistry.run (store : VectorStore) (r : TwoToolRegistry) :
    List ToolCallEvent → TwoToolRegistry
  | [] => r
  | e :: es => TwoToolRegistry.run store (r.step store e) es

/-- The registry contents as `ToolManager` sees them, in registration order:
search tool first, outline tool second, both carrying a `last_sources`
attribute. -/
def TwoToolRegistry.toToolStates (r : TwoToolRegistry) : List ToolState :=
  [{ name := "search_course_content", last_sources := some r.searchSources },
   { name := "get_course_outline", last_sources := some r.outlineSources }]

/-- One content block of a model response: a text block or a tool-use
request (`content_block.type` in the source). -/
inductive ContentBlock
| text (s : String)
| toolUse (id : String) (name : String) (input : ToolArgs)
deriving DecidableEq

/-- One response of the model endpoint: stop reason plus ordered content
blocks. -/
structure ModelResponse where
  stop_reason : String
  content : List ContentBlock
deriving DecidableEq

/-- One `tool_result` entry appended to the conversation after dispatch. -/
structure ToolResultMsg where
  tool_use_id : String
  content : String
deriving DecidableEq

/-- The tool manager as the orchestrator sees it: dispatches a named tool on
its arguments, returning tool text or raising. -/
abbrev ToolExec := String → ToolArgs → Except String String

/-- Content of one conversation message built by the orchestrator. -/
inductive MessageContent
| userText (s : String)
| assistantBlocks (blocks : List ContentBlock)
| toolResults (results : List ToolResultMsg)

/-- One conversation message (role plus content). -/
structure ChatMessage where
  role : String
  content : MessageContent

/-- The Python expression `response.content[0].text`: raises `IndexError` on
empty content and `AttributeError` when the first block is a tool-use block
(which has no `text` attribute); otherwise yields the text. -/
def firstBlockText (r : ModelResponse) : Except String String :=
  match r.content with
  | [] => Except.error "IndexError"
  | ContentBlock.text s :: _ => Except.ok s
  | ContentBlock.toolUse _ _ _ :: _ => Except.error "AttributeError"

/-- `AIGenerator._should_continue_rounds`: false once the current round
number has reached `max_rounds`, else true exactly when the stop reason is
`tool_use`. -/
def should_continue_rounds (response : ModelResponse)
    (round_number max_rounds : Nat) : Bool :=
  if round_number ≥ max_rounds then false
  else if response.stop_reason == "tool_use" then true
  else false

/-- The dispatch loop body of `AIGenerator._execute_tools_for_round`: runs
`execute_tool` for every tool-use block in order, collecting one result per
call; a raising tool aborts the whole loop with its exception. -/
def runToolBlocks (exec : ToolExec) : List ContentBlock → Except String (List ToolResultMsg)
  | [] => Except.ok []
  | ContentBlock.text _ :: rest => runToolBlocks exec rest
  | ContentBlock.toolUse id name input :: rest =>
    match exec name input with
    | Except.error e => Except.error e
    | Except.ok r =>
      match runToolBlocks exec rest with
      | Except.error e => Except.error e
      | Except.ok rs => Except.ok ({ tool_use_id := id, content := r } :: rs)

/-- `AIGenerator._execute_tools_for_round`: `None` without a tool manager or
when the stop reason is not `tool_use`; catches any exception raised during
dispatch (returning `None`); also `None` when no tool result was
collected. -/
def execute_tools_for_round (tool_manager : Option ToolExec)
    (response : ModelResponse) : Option (List ToolResultMsg) :=
  match tool_manager with
  | none => none
  | some exec =>
    if response.stop_reason != "tool_use" then none
    else
      match runToolBlocks exec response.content with
      | Except.error _ => none
      | Except.ok [] => none
      | Except.ok rs => some rs

/-- Outcome of one orchestrator run: the returned string (or the uncaught
exception), the total number of model calls issued, and per model call
whether tool definitions were included in the request. -/
structure OrchestratorOutcome where
  result : Except String String
  model_calls : Nat
  tools_in_request : List Bool

/-- The round loop of `AIGenerator.generate_response_with_sequential_tools`.
The first list argument is the remaining iteration space of
`for round_number in range(1, max_rounds + 1)`; the model endpoint is
embedded as the sequence of responses it returns, indexed by the number of
calls made so far.  Each loop iteration issues one model call (tools
included when the `tools` argument is truthy), returns
`response.content[0].text` when `_should_continue_rounds` is false or when
dispatch yields no results, and otherwise appends the assistant turn and the
tool results and continues.  When the loop exhausts all rounds, one final
model call without tools is issued and its first block's text returned. -/
def run_tool_rounds (model : Nat → ModelResponse) (tools : List String)
    (tool_manager : Option ToolExec) (max_rounds : Nat) :
    List Nat → Nat → List Bool → List ChatMessage → OrchestratorOutcome
  | [], calls, trace, _messages =>
    let final_response := model calls
    { result := firstBlockText final_response,
      model_calls := calls + 1,
      tools_in_request := trace ++ [false] }
  | round_number :: rest, calls, trace, messages =>
    let response := model calls
    let calls' := calls + 1
    let trace' := trace ++ [!tools.isEmpty]
    if should_continue_rounds response round_number max_rounds then
      let messages' := messages ++
        [{ role := "assistant", content := MessageContent.assistantBlocks response.content }]
      match execute_tools_for_round tool_manager response with
      | some tool_results =>
        run_tool_rounds model tools tool_manager max_rounds rest calls' trace'
          (messages' ++ [{ role := "user", content := MessageContent.toolResults tool_results }])
      | none =>
        { result := firstBlockText response, model_calls := calls',
          tools_in_request := trace' }
    else
      { result := firstBlockText response, model_calls := calls',
        tools_in_request := trace' }

/-- `AIGenerator.generate_response_with_sequential_tools`: starts the
conversation with the user query and runs rounds `1 .. max_rounds`. -/
def generate_response_with_sequential_tools (model : Nat → ModelResponse)
    (query : String) (tools : List String) (tool_manager : Option ToolExec)
    (max_rounds : Nat) : OrchestratorOutcome :=
  run_tool_rounds model tools tool_manager max_rounds (List.range' 1 max_rounds) 0 []
    [{ role := "user", content := MessageContent.userText query }]

/-- A model response that requests one tool call and carries no text block
(as in the repository's own `test_max_rounds_enforcement` fixture). -/
def toolUseOnlyResponse : ModelResponse :=
  { stop_reason := "tool_use",
    content := [ContentBlock.toolUse "tool_call_1" "search_course_content" [("query", "test")]] }

/-- A tool manager whose dispatch always succeeds with a fixed result. -/
def alwaysOkToolExec : ToolExec := fun _ _ => Except.ok "Tool result"

/-- A tool manager whose dispatch always raises. -/
def failingToolExec : ToolExec := fun _ _ => Except.error "Tool execution failed"

/-- A tool-use response whose first block is the tool-use request and whose
text block comes second. -/
def toolUseThenTextResponse : ModelResponse :=
  { stop_reason := "tool_use",
    content := [ContentBlock.toolUse "tool_call_1" "search_course_content" [("query", "test")],
                ContentBlock.text "I hit a tool error."] }

/-- A tool-use response that emits its text block first, then the tool-use
request (as in the repository's `test_tool_execution_failure_handling`
fixture). -/
def textThenToolUseResponse : ModelResponse :=
  { stop_reason := "tool_use",
    content := [ContentBlock.text "I could not complete the search.",
                ContentBlock.toolUse "tool_call_1" "search_course_content" [("query", "test")]] }

/-- C1, code-bug evaluation: run the orchestrator at the failing input —
`max_rounds = 2` with the model requesting tool use in both rounds and a
succeeding tool.  The code issues exactly 2 model calls, both with the tool
definitions included, and returns `response.content[0].text` of the round-2
tool-use response (an attribute error, since that block has no text); it
never issues the additional tools-omitted model call that the claim — and
the repository's own test `test_max_rounds_enforcement`, which expects 3
API calls and the final call's text — requires.  The cause is
`_should_continue_rounds` returning false as soon as
`round_number >= max_rounds`, which makes the loop return before the
"final call without tools" code after the loop can ever run. -/
theorem claim_C1_no_forced_final_call :
    (generate_response_with_sequential_tools (fun _ => toolUseOnlyResponse) "Test query"
        ["search_course_content"] (some alwaysOkToolExec) 2).model_calls = 2 ∧
    (generate_response_with_sequential_tools (fun _ => toolUseOnlyResponse) "Test query"
        ["search_course_content"] (some alwaysOkToolExec) 2).tools_in_request = [true, true] ∧
    (generate_response_with_sequential_tools (fun _ => toolUseOnlyResponse) "Test query"
        ["search_course_content"] (some alwaysOkToolExec) 2).result =
      Except.error "AttributeError" :=
  ⟨rfl, rfl, rfl⟩

/-- Upper bound on the number of model calls issued by the round loop:
starting from `calls` calls already made, it makes at most one call per
remaining round plus at most one final call. -/
theorem run_tool_rounds_model_calls_le (model : Nat → ModelResponse)
    (tools : List String) (tool_manager : Option ToolExec) (max_rounds : Nat) :
    ∀ (rounds : List Nat) (calls : Nat) (trace : List Bool) (msgs : List ChatMessage),
      (run_tool_rounds model tools tool_manager max_rounds rounds calls trace msgs).model_calls ≤
        calls + rounds.length + 1 := by
  intro rounds
  induction rounds with
  | nil =>
    intro calls trace msgs
    simp [run_tool_rounds]
  | cons r rest ih =>
    intro calls trace msgs
    simp only [run_tool_rounds]
    split
    · split
      · exact le_trans (ih _ _ _) (by simp only [List.length_cons]; omega)
      · show calls + 1 ≤ calls + (r :: rest).length + 1
        simp only [List.length_cons]
        omega
    · show calls + 1 ≤ calls + (r :: rest).length + 1
      simp only [List.length_cons]
      omega

/-- C2: for every query, model behaviour and positive `max_rounds = R`, the
sequential orchestrator issues at most `R + 1` model calls in total; the
round loop is a total function of the finite round list `range' 1 R`, so it
terminates even when the model requests tool use in every round. -/
theorem claim_C2_model_call_bound (model : Nat → ModelResponse) (query : String)
    (tools : List String) (tool_manager : Option ToolExec) (R : Nat) (hR : 0 < R) :
    (generate_response_with_sequential_tools model query tools tool_manager R).model_calls ≤
      R + 1 := by
  have h := run_tool_rounds_model_calls_le model tools tool_manager R (List.range' 1 R) 0 []
    [{ role := "user", content := MessageContent.userText query }]
  simpa [generate_response_with_sequential_tools, List.length_range'] using h

/-- C2 witness: at `R = 2` with a model that requests tools in every round,
at most 3 model calls are issued. -/
theorem claim_C2_witness :
    0 < 2 ∧
    (generate_response_with_sequential_tools (fun _ => toolUseOnlyResponse) "Test query"
        ["search_course_content"] (some alwaysOkToolExec) 2).model_calls ≤ 2 + 1 :=
  ⟨by decide,
   claim_C2_model_call_bound (fun _ => toolUseOnlyResponse) "Test query"
     ["search_course_content"] (some alwaysOkToolExec) 2 (by decide)⟩

/-- A true `_should_continue_rounds` forces the stop reason `tool_use`. -/
theorem stop_reason_of_should_continue {response : ModelResponse}
    {round_number max_rounds : Nat}
    (h : should_continue_rounds response round_number max_rounds = true) :
    response.stop_reason = "tool_use" := by
  unfold should_continue_rounds at h
  split at h
  · exact absurd h (by simp)
  · split at h
    · next h2 => exact eq_of_beq h2
    · exact absurd h (by simp)

/-- C3 counterexample: the model's round-1 response requests a tool and also
emits a text block (its last content block), and the tool raises during
dispatch.  The claim says the orchestrator returns the model's last textual
content — a non-empty string — without raising; the code instead evaluates
`response.content[0].text` on the tool-use block at index 0, which raises an
attribute error, and no graceful-degradation message exists on this path. -/
theorem claim_C3_counterexample :
    (generate_response_with_sequential_tools (fun _ => toolUseThenTextResponse)
        "Search for AI content" ["search_course_content"] (some failingToolExec) 2).result =
      Except.error "AttributeError" ∧
    toolUseThenTextResponse.content.getLast? =
      some (ContentBlock.text "I hit a tool error.") :=
  ⟨rfl, rfl⟩

/-- C3 amended: in any round whose response requests tool use (with the
round bound not yet reached) and whose dispatch raises, the orchestrator
catches the dispatch exception and returns `response.content[0].text` of
that round's response: the first content block's text when that block is a
text block (so no exception propagates, though the text may be empty and
need not be the last text emitted), and an attribute error — not a
graceful-degradation message — when the first block is a tool-use block. -/
theorem claim_C3_dispatch_failure (model : Nat → ModelResponse) (tools : List String)
    (exec : ToolExec) (max_rounds r : Nat) (rest : List Nat) (calls : Nat)
    (trace : List Bool) (msgs : List ChatMessage) (e : String)
    (hcont : should_continue_rounds (model calls) r max_rounds = true)
    (hraise : runToolBlocks exec (model calls).content = Except.error e) :
    (run_tool_rounds model tools (some exec) max_rounds (r :: rest) calls trace msgs).result =
      firstBlockText (model calls) ∧
    (∀ s bs, (model calls).content = ContentBlock.text s :: bs →
      (run_tool_rounds model tools (some exec) max_rounds (r :: rest) calls trace msgs).result =
        Except.ok s) ∧
    (∀ id n args bs, (model calls).content = ContentBlock.toolUse id n args :: bs →
      (run_tool_rounds model tools (some exec) max_rounds (r :: rest) calls trace msgs).result =
        Except.error "AttributeError") := by
  have hstop := stop_reason_of_should_continue hcont
  have hdispatch : execute_tools_for_round (some exec) (model calls) = none := by
    simp [execute_tools_for_round, hstop, hraise]
  have hmain :
      (run_tool_rounds model tools (some exec) max_rounds (r :: rest) calls trace msgs).result =
        firstBlockText (model calls) := by
    simp only [run_tool_rounds, hcont, if_true, hdispatch]
  refine ⟨hmain, ?_, ?_⟩
  · intro s bs hc
    rw [hmain]
    unfold firstBlockText
    rw [hc]
  · intro id n args bs hc
    rw [hmain]
    unfold firstBlockText
    rw [hc]

/-- C3 witness: concrete round where the tool raises and the response's
first block is its text block — the orchestrator returns that text. -/
theorem claim_C3_witness :
    should_continue_rounds textThenToolUseResponse 1 2 = true ∧
    runToolBlocks failingToolExec textThenToolUseResponse.content =
      Except.error "Tool execution failed" ∧
    (generate_response_with_sequential_tools (fun _ => textThenToolUseResponse) "Search for AI content"
        ["search_course_content"] (some failingToolExec) 2).result =
      Except.ok "I could not complete the search." :=
  ⟨by decide, rfl,
   (claim_C3_dispatch_failure (fun _ => textThenToolUseResponse) ["search_course_content"]
       failingToolExec 2 1 [2] 0 []
       [{ role := "user", content := MessageContent.userText "Search for AI content" }]
       "Tool execution failed" (by decide) rfl).2.1
     "I could not complete the search."
     [ContentBlock.toolUse "tool_call_1" "search_course_content" [("query", "test")]] rfl⟩

/-- A store with one course ("MCP Course", one lesson) on which both tools
succeed and produce non-empty provenance. -/
def demoStore : VectorStore :=
  { search := fun _ _ _ =>
      { documents := ["Content about RAG systems"],
        metadata := [{ course_title := some "MCP Course", lesson_number := some 4 }],
        error := none },
    get_lesson_link := fun _ _ => some "https://example.com/mcp/lesson4",
    resolve_course_name := fun _ => some "MCP Course",
    get_all_courses_metadata :=
      [{ title := some "MCP Course", course_link := some "https://example.com/mcp",
         instructor := some "Ada", lessons := [{ lesson_number := some 0, lesson_title := some "Intro" }] }] }

/-- Registry state after executing the search tool and then the outline tool
(so the outline tool executed most recently), starting from empty
provenance. -/
def registryAfterSearchThenOutline : TwoToolRegistry :=
  TwoToolRegistry.run demoStore { searchSources := [], outlineSources := [] }
    [ToolCallEvent.searchCall "RAG systems" none none, ToolCallEvent.outlineCall "MCP"]

/-- C4 counterexample: both registered tools hold non-empty provenance and
the outline tool executed most recently, yet `get_last_sources` returns the
search tool's provenance — the scan runs in registration order (search tool
first) and returns the first non-empty `last_sources`, not the most
recent. -/
theorem claim_C4_counterexample :
    registryAfterSearchThenOutline.outlineSources =
      [{ text := "MCP Course", url := some "https://example.com/mcp" }] ∧
    registryAfterSearchThenOutline.searchSources =
      [{ text := "MCP Course - Lesson 4", url := some "https://example.com/mcp/lesson4" }] ∧
    ToolManager.get_last_sources registryAfterSearchThenOutline.toToolStates =
      registryAfterSearchThenOutline.searchSources ∧
    ToolManager.get_last_sources registryAfterSearchThenOutline.toToolStates ≠
      registryAfterSearchThenOutline.outlineSources :=
  ⟨by decide, by decide, by decide, by decide⟩

/-- C4 amended: `collect_sources` scans the registered tools in registration
order and returns the first non-empty provenance (not necessarily the most
recently executed tool's); since the search tool is registered before the
outline tool, after an outline-tool execution followed by a search-tool
execution that found passages, it returns the search tool's sources. -/
theorem claim_C4_first_registered_sources (ts1 ts2 : List ToolState) (t : ToolState)
    (ss : List SourceWithLink)
    (h1 : ∀ u ∈ ts1, u.last_sources = none ∨ u.last_sources = some [])
    (h2 : t.last_sources = some ss) (h3 : ss ≠ []) :
    ToolManager.get_last_sources (ts1 ++ t :: ts2) = ss ∧
    ∀ (store : VectorStore) (r0 : TwoToolRegistry) (c q : String)
      (cn : Option String) (ln : Option Int),
      (TwoToolRegistry.run store r0
        [ToolCallEvent.outlineCall c, ToolCallEvent.searchCall q cn ln]).searchSources ≠ [] →
      ToolManager.get_last_sources
        (TwoToolRegistry.run store r0
          [ToolCallEvent.outlineCall c, ToolCallEvent.searchCall q cn ln]).toToolStates =
      (TwoToolRegistry.run store r0
        [ToolCallEvent.outlineCall c, ToolCallEvent.searchCall q cn ln]).searchSources := by
  constructor
  · induction ts1 with
    | nil =>
      simp only [List.nil_append, ToolManager.get_last_sources, h2]
      rw [if_neg]
      simp [h3]
    | cons u us ih =>
      have hu := h1 u (by simp)
      have hrest : ∀ v ∈ us, v.last_sources = none ∨ v.last_sources = some [] :=
        fun v hv => h1 v (by simp [hv])
      rcases hu with hu | hu
      · simp only [List.cons_append, ToolManager.get_last_sources, hu]
        exact ih hrest
      · simp only [List.cons_append, ToolManager.get_last_sources, hu]
        rw [if_pos (by simp)]
        exact ih hrest
  · intro store r0 c q cn ln hne
    simp only [TwoToolRegistry.toToolStates, ToolManager.get_last_sources]
    rw [if_neg]
    simp [hne]

/-- C4 witness for the amended statement: a two-tool registry whose first
registered tool has empty provenance and whose second holds one source. -/
theorem claim_C4_witness :
    ToolManager.get_last_sources
      [{ name := "search_course_content", last_sources := some [] },
       { name := "get_course_outline",
         last_sources := some [{ text := "MCP Course", url := none }] }] =
    [{ text := "MCP Course", url := none }] :=
  (claim_C4_first_registered_sources
    [{ name := "search_course_content", last_sources := some [] }] []
    { name := "get_course_outline",
      last_sources := some [{ text := "MCP Course", url := none }] }
    [{ text := "MCP Course", url := none }]
    (by decide) rfl (by decide)).1

/-- A store whose search always reports zero matches and no error. -/
def emptyStore : VectorStore :=
  { search := fun _ _ _ => { documents := [], metadata := [], error := none },
    get_lesson_link := fun _ _ => none,
    resolve_course_name := fun _ => none,
    get_all_courses_metadata := [] }

/-- A store whose search always reports a backend error. -/
def errorStore : VectorStore :=
  { search := fun _ _ _ =>
      { documents := [], metadata := [],
        error := some "Search error: ChromaDB connection failed" },
    get_lesson_link := fun _ _ => none,
    resolve_course_name := fun _ => none,
    get_all_courses_metadata := [] }

/-- C5: on a successful search (no truthy backend error, at least one
passage), the stored provenance equals the zipped passage list mapped
through the label/link construction — so it has exactly one entry per
formatted passage, in passage order, labelled `<course> - Lesson <n>` when
the passage metadata has a lesson number and `<course>` otherwise; the
right-hand side does not mention the prior provenance, so the new list
overwrites whatever was stored before.  The last conjunct: after
`reset_sources`, every tool that tracks provenance holds the empty list. -/
theorem claim_C5_search_provenance (store : VectorStore) (query : String)
    (cn : Option String) (ln : Option Int) (prior : List SourceWithLink)
    (herr : truthyStr (store.search query cn ln).error = false)
    (hne : (store.search query cn ln).is_empty = false) :
    (CourseSearchTool.execute store query cn ln prior).2 =
      ((store.search query cn ln).documents.zip (store.search query cn ln).metadata).map
        (fun p =>
          { text := p.2.course_title.getD "unknown" ++
              (match p.2.lesson_number with
               | some n => " - Lesson " ++ toString n
               | none => ""),
            url := match p.2.lesson_number with
              | some n => store.get_lesson_link (p.2.course_title.getD "unknown") n
              | none => none }) ∧
    (CourseSearchTool.execute store query cn ln prior).2.length =
      ((store.search query cn ln).documents.zip (store.search query cn ln).metadata).length ∧
    (∀ ts : List ToolState, ∀ u ∈ ToolManager.reset_sources ts,
      u.last_sources = none ∨ u.last_sources = some []) := by
  have hexec : CourseSearchTool.execute store query cn ln prior =
      CourseSearchTool.format_results store (store.search query cn ln) := by
    unfold CourseSearchTool.execute
    rw [if_neg (by simp [herr]), if_neg (by simp [hne])]
  refine ⟨?_, ?_, ?_⟩
  · rw [hexec]
    rfl
  · rw [hexec]
    simp [CourseSearchTool.format_results]
  · intro ts u hu
    simp only [ToolManager.reset_sources, List.mem_map] at hu
    obtain ⟨t, _, rfl⟩ := hu
    cases t.last_sources <;> simp

/-- C5 witness: a one-passage search on the demo store yields a single
source labelled with course and lesson, and `reset_sources` on a concrete
registry empties every provenance list. -/
theorem claim_C5_witness :
    truthyStr (demoStore.search "RAG systems" none none).error = false ∧
    (demoStore.search "RAG systems" none none).is_empty = false ∧
    (CourseSearchTool.execute demoStore "RAG systems" none none
        [{ text := "stale", url := none }]).2 =
      ((demoStore.search "RAG systems" none none).documents.zip
        (demoStore.search "RAG systems" none none).metadata).map
        (fun p =>
          { text := p.2.course_title.getD "unknown" ++
              (match p.2.lesson_number with
               | some n => " - Lesson " ++ toString n
               | none => ""),
            url := match p.2.lesson_number with
              | some n => demoStore.get_lesson_link (p.2.course_title.getD "unknown") n
              | none => none }) :=
  ⟨by decide, by decide,
   (claim_C5_search_provenance demoStore "RAG systems" none none
     [{ text := "stale", url := none }] (by decide) (by decide)).1⟩

/-- C6 counterexample: a search with the active filter `lesson_number = 0`
and zero matches returns the bare no-match message — the Python truthiness
test `if lesson_number:` treats lesson 0 as unset, so the active lesson
filter is not echoed. -/
theorem claim_C6_counterexample :
    (CourseSearchTool.execute emptyStore "q" none (some 0) []).1 =
      "No relevant content found." ∧
    (CourseSearchTool.execute emptyStore "q" none (some 0) []).1 ≠
      "No relevant content found in lesson 0." :=
  ⟨rfl, by decide⟩

/-- C6 amended: the search tool classifies in this order and never raises
(its embedding is a total function): a non-empty backend error string is
returned verbatim (checked before emptiness); zero matches produce the
"No relevant content found" message extended with the course filter when it
is a non-empty string and with the lesson filter when the lesson number is
nonzero (Python truthiness); otherwise each passage is rendered under the
header `[<course title>` optionally ` - Lesson <n>` `]` followed by its
text, joined in ranked order. -/
theorem claim_C6_result_classification (store : VectorStore) (query : String)
    (cn : Option String) (ln : Option Int) (prior : List SourceWithLink) :
    (∀ e, (store.search query cn ln).error = some e → e ≠ "" →
      (CourseSearchTool.execute store query cn ln prior).1 = e) ∧
    (truthyStr (store.search query cn ln).error = false →
      (store.search query cn ln).is_empty = true →
      (CourseSearchTool.execute store query cn ln prior).1 =
        "No relevant content found" ++
          (match cn with
           | some c => if c ≠ "" then " in course \x27" ++ c ++ "\x27" else ""
           | none => "") ++
          (match ln with
           | some k => if k ≠ 0 then " in lesson " ++ toString k else ""
           | none => "") ++ ".") ∧
    (truthyStr (store.search query cn ln).error = false →
      (store.search query cn ln).is_empty = false →
      (CourseSearchTool.execute store query cn ln prior).1 =
        String.intercalate "\n\n"
          (((store.search query cn ln).documents.zip (store.search query cn ln).metadata).map
            (fun p => "[" ++ p.2.course_title.getD "unknown" ++
                (match p.2.lesson_number with
                 | some n => " - Lesson " ++ toString n
                 | none => "") ++ "]" ++ "\n" ++ p.1))) := by
  refine ⟨?_, ?_, ?_⟩
  · intro e he hne
    unfold CourseSearchTool.execute
    rw [if_pos (by simp [truthyStr, he, hne])]
    simp [he]
  · intro herr hemp
    unfold CourseSearchTool.execute
    rw [if_neg (by simp [herr]), if_pos (by simp [hemp])]
    cases cn with
    | none =>
      cases ln with
      | none => simp [truthyStr, truthyInt]
      | some k => by_cases hk : k = 0 <;> simp [truthyStr, truthyInt, hk]
    | some c =>
      cases ln with
      | none => by_cases hc : c = "" <;> simp [truthyStr, truthyInt, hc]
      | some k =>
        by_cases hc : c = "" <;> by_cases hk : k = 0 <;>
          simp [truthyStr, truthyInt, hc, hk, String.append_assoc]
  · intro herr hemp
    unfold CourseSearchTool.execute
    rw [if_neg (by simp [herr]), if_neg (by simp [hemp])]
    rfl

/-- C6 witness: the three classifications at concrete stores — the verbatim
error, the no-match message echoing both truthy filters, and the formatted
passage under its header. -/
theorem claim_C6_witness :
    (CourseSearchTool.execute errorStore "q" none none []).1 =
      "Search error: ChromaDB connection failed" ∧
    (CourseSearchTool.execute emptyStore "q" (some "AI Course") (some 2) []).1 =
      "No relevant content found in course \x27AI Course\x27 in lesson 2." ∧
    (CourseSearchTool.execute demoStore "q" none none []).1 =
      "[MCP Course - Lesson 4]\nContent about RAG systems" := by
  refine ⟨?_, ?_, ?_⟩
  · exact (claim_C6_result_classification errorStore "q" none none []).1
      "Search error: ChromaDB connection failed" rfl (by decide)
  · exact ((claim_C6_result_classification emptyStore "q" (some "AI Course") (some 2) []).2.1
      (by decide) (by decide)).trans (by decide)
  · exact ((claim_C6_result_classification demoStore "q" none none []).2.2
      (by decide) (by decide)).trans (by decide)

/-- C10: when the search tool surfaces a backend error or reports zero
matches (the two non-formatting classifications), the tool's `last_sources`
is left exactly as it was — provenance from an earlier successful execution
persists across failed or empty searches. -/
theorem claim_C10_sources_frame (store : VectorStore) (query : String)
    (cn : Option String) (ln : Option Int) (prior : List SourceWithLink)
    (h : truthyStr (store.search query cn ln).error = true ∨
         (store.search query cn ln).is_empty = true) :
    (CourseSearchTool.execute store query cn ln prior).2 = prior := by
  unfold CourseSearchTool.execute
  by_cases herr : truthyStr (store.search query cn ln).error = true
  · rw [if_pos (by simp [herr])]
  · rw [if_neg (by simp [herr])]
    have hemp : (store.search query cn ln).is_empty = true := by
      rcases h with h | h
      · exact absurd h herr
      · exact h
    rw [if_pos (by simp [hemp])]

/-- C10 witness: a non-empty prior provenance survives an empty search and
an erroring search unchanged. -/
theorem claim_C10_witness :
    (CourseSearchTool.execute emptyStore "q" none none
        [{ text := "Old Course - Lesson 1", url := none }]).2 =
      [{ text := "Old Course - Lesson 1", url := none }] ∧
    (CourseSearchTool.execute errorStore "q" none none
        [{ text := "Old Course - Lesson 1", url := none }]).2 =
      [{ text := "Old Course - Lesson 1", url := none }] :=
  ⟨claim_C10_sources_frame emptyStore "q" none none
      [{ text := "Old Course - Lesson 1", url := none }] (Or.inr (by decide)),
   claim_C10_sources_frame errorStore "q" none none
      [{ text := "Old Course - Lesson 1", url := none }] (Or.inl (by decide))⟩

/-- A store that resolves every name to a course title that has no metadata
record (a catalog/index inconsistency). -/
def ghostStore : VectorStore :=
  { search := fun _ _ _ => { documents := [], metadata := [], error := none },
    get_lesson_link := fun _ _ => none,
    resolve_course_name := fun _ => some "Ghost Course",
    get_all_courses_metadata := [] }

/-- C7: outline-tool failure modes.  When fuzzy resolution fails the tool
returns the "No course found matching '...'" message and never touches the
metadata catalog (short-circuit); when resolution succeeds (a usable,
non-empty canonical title) but no metadata record carries that title, the
tool returns the distinct "Course metadata not found for '...'" message;
the two messages are distinguishable for all arguments, and the embedding
is a total function, so the tool never raises. -/
theorem claim_C7_outline_failure_modes (store : VectorStore) (c t : String)
    (prior : List SourceWithLink) :
    (store.resolve_course_name c = none →
      (CourseOutlineTool.execute store c prior).1 =
        "No course found matching \x27" ++ c ++ "\x27" ∧
      StoreOp.getAllCoursesMetadata ∉ (CourseOutlineTool.execute store c prior).2.2) ∧
    (store.resolve_course_name c = some t → t ≠ "" →
      (∀ cm ∈ store.get_all_courses_metadata, cm.title ≠ some t) →
      (CourseOutlineTool.execute store c prior).1 =
        "Course metadata not found for \x27" ++ t ++ "\x27") ∧
    (∀ a b : String,
      "No course found matching \x27" ++ a ++ "\x27" ≠
        "Course metadata not found for \x27" ++ b ++ "\x27") := by
  refine ⟨?_, ?_, ?_⟩
  · intro hres
    have hexec : CourseOutlineTool.execute store c prior =
        ("No course found matching \x27" ++ c ++ "\x27", prior,
         [StoreOp.resolveCourseName c]) := by
      unfold CourseOutlineTool.execute
      rw [hres]
      rfl
    rw [hexec]
    exact ⟨rfl, by simp⟩
  · intro hres ht hnone
    have hfind : store.get_all_courses_metadata.find? (fun x => x.title == some t) = none := by
      rw [List.find?_eq_none]
      intro x hx
      simp only [beq_iff_eq]
      exact hnone x hx
    unfold CourseOutlineTool.execute
    rw [hres]
    rw [if_pos (by simp [truthyStr, ht])]
    simp only [Option.getD_some]
    rw [hfind]
  · intro a b h
    have hd := congrArg String.data h
    simp [String.data_append] at hd

/-- C7 witness: failed resolution on a concrete store returns the no-course
message with no metadata lookup, and a resolved-but-recordless title on
another concrete store returns the metadata-not-found message; the two
messages differ. -/
theorem claim_C7_witness :
    (CourseOutlineTool.execute emptyStore "MCP" []).1 =
      "No course found matching \x27MCP\x27" ∧
    StoreOp.getAllCoursesMetadata ∉ (CourseOutlineTool.execute emptyStore "MCP" []).2.2 ∧
    (CourseOutlineTool.execute ghostStore "MCP" []).1 =
      "Course metadata not found for \x27Ghost Course\x27" ∧
    "No course found matching \x27MCP\x27" ≠
      "Course metadata not found for \x27Ghost Course\x27" := by
  have h := claim_C7_outline_failure_modes emptyStore "MCP" "Ghost Course" []
  have h2 := claim_C7_outline_failure_modes ghostStore "MCP" "Ghost Course" []
  exact ⟨(h.1 rfl).1, (h.1 rfl).2, h2.2.1 rfl (by decide) (by decide),
    h.2.2 "MCP" "Ghost Course"⟩

/-- C8: on a course metadata record with a non-empty lesson list the outline
tool renders the lesson section as the stable sort of the lessons by lesson
number (ascending — the sorted list is pairwise non-decreasing on the sort
key and a permutation of the record's lessons, so every lesson is listed),
each line produced by `formatLessonLine`, which yields `<number>. <title>`
for a numbered, titled lesson; the provenance stored by the rendering is
exactly one source (course title plus course link), and along the
successful-execution path it replaces the prior provenance (the result does
not depend on `prior`). -/
theorem claim_C8_outline_rendering (cm : CourseMeta) (store : VectorStore)
    (c t : String) (prior : List SourceWithLink)
    (hlessons : cm.lessons ≠ []) :
    (CourseOutlineTool.format_course_outline cm).2 =
      [{ text := cm.title.getD "Unknown Course", url := cm.course_link }] ∧
    (store.resolve_course_name c = some t → t ≠ "" →
      store.get_all_courses_metadata.find? (fun x => x.title == some t) = some cm →
      (CourseOutlineTool.execute store c prior).2.1 =
        [{ text := cm.title.getD "Unknown Course", url := cm.course_link }]) ∧
    (CourseOutlineTool.format_course_outline cm).1 =
      String.intercalate "\n"
        ((if truthyStr cm.course_link then
            ["**" ++ cm.title.getD "Unknown Course" ++ "**",
             "Course Link: " ++ cm.course_link.getD ""]
          else ["**" ++ cm.title.getD "Unknown Course" ++ "**"]) ++
         (if truthyStr cm.instructor then ["Instructor: " ++ cm.instructor.getD ""] else []) ++
         ("\n**Lessons (" ++ toString cm.lessons.length ++ " total):**") ::
           (cm.lessons.insertionSort (fun a b => lessonSortKey a ≤ lessonSortKey b)).map
             formatLessonLine) ∧
    (cm.lessons.insertionSort (fun a b => lessonSortKey a ≤ lessonSortKey b)).Perm cm.lessons ∧
    List.Pairwise (fun a b => a.lesson_number.getD 0 ≤ b.lesson_number.getD 0)
      (cm.lessons.insertionSort (fun a b => lessonSortKey a ≤ lessonSortKey b)) ∧
    (∀ n title, formatLessonLine { lesson_number := some n, lesson_title := some title } =
      toString n ++ ". " ++ title) := by
  refine ⟨rfl, ?_, ?_, List.perm_insertionSort _ _, ?_, fun n title => rfl⟩
  · intro hres ht hfind
    unfold CourseOutlineTool.execute
    rw [hres]
    rw [if_pos (by simp [truthyStr, ht])]
    simp only [Option.getD_some]
    rw [hfind]
    rfl
  · have hne : cm.lessons.isEmpty = false := by simp [hlessons]
    simp [CourseOutlineTool.format_course_outline, hne]
  · haveI : IsTotal LessonMeta (fun a b => lessonSortKey a ≤ lessonSortKey b) :=
      ⟨fun a b => le_total _ _⟩
    haveI : IsTrans LessonMeta (fun a b => lessonSortKey a ≤ lessonSortKey b) :=
      ⟨fun _ _ _ => le_trans⟩
    exact List.sorted_insertionSort (fun a b => lessonSortKey a ≤ lessonSortKey b) cm.lessons

/-- C8 witness: the demo store's course (one lesson) rendered through the
theorem's successful-execution branch. -/
theorem claim_C8_witness :
    ([{ lesson_number := some 0, lesson_title := some "Intro" }] : List LessonMeta) ≠ [] ∧
    (CourseOutlineTool.execute demoStore "MCP"
        [{ text := "stale", url := none }]).2.1 =
      [{ text := "MCP Course", url := some "https://example.com/mcp" }] :=
  ⟨by decide,
   (claim_C8_outline_rendering
      { title := some "MCP Course", course_link := some "https://example.com/mcp",
        instructor := some "Ada",
        lessons := [{ lesson_number := some 0, lesson_title := some "Intro" }] }
      demoStore "MCP" "MCP Course" [{ text := "stale", url := none }]
      (by decide)).2.1 rfl (by decide) rfl⟩

/-- C9: `execute_tool` on a name that is not registered returns the
explicit "Tool '...' not found" string naming the tool; the result is an
ordinary return value (`Except.ok`), never a raised exception. -/
theorem claim_C9_unknown_tool (tools : List (String × ToolBehavior))
    (tool_name : String) (args : ToolArgs)
    (h : tool_name ∉ tools.map Prod.fst) :
    ToolManager.execute_tool tools tool_name args =
      Except.ok ("Tool \x27" ++ tool_name ++ "\x27 not found") := by
  unfold ToolManager.execute_tool
  have hfind : tools.find? (fun p => p.1 == tool_name) = none := by
    rw [List.find?_eq_none]
    intro p hp
    simp only [beq_iff_eq]
    intro heq
    exact h (heq ▸ List.mem_map_of_mem Prod.fst hp)
  rw [hfind]

/-- C9 witness: executing an unregistered name against a registry holding
only the search tool. -/
theorem claim_C9_witness :
    "get_course_outline" ∉
      ([("search_course_content", fun _ => Except.ok "ok")] :
        List (String × ToolBehavior)).map Prod.fst ∧
    ToolManager.execute_tool [("search_course_content", fun _ => Except.ok "ok")]
        "get_course_outline" [] =
      Except.ok ("Tool \x27get_course_outline\x27 not found") :=
  ⟨by decide,
   claim_C9_unknown_tool [("search_course_content", fun _ => Except.ok "ok")]
     "get_course_outline" [] (by decide)⟩

end RagChatbot
